import Mathlib

/-!
Verification of the messaging, notification-badge and analytics logic of the
Corner mobile client (conversation.tsx and admin-dashboard.tsx).

The TypeScript handlers are embedded shallowly: React state updates become
explicit state passing on a ConvState / BadgeState record, Firestore writes
become elements of an explicit effect list, and the asynchronous success or
failure of a store write is a Boolean parameter of the handler.  JavaScript
strings are Lean strings; the JavaScript trim and the lexicographic string
comparison used by the timestamp ordering are modelled by executable
char-list functions.  JavaScript numbers holding the analytics counters are
modelled by an Int-or-NaN type so that the increment of an uninitialized
object key is represented faithfully.
-/

namespace Corner

/-! ## JavaScript string primitives -/

/-- Whitespace recognizer for the trim model (space, tab, newline, return). -/
def isWs (c : Char) : Bool := c = ' ' || c = '\t' || c = '\n' || c = '\r'

/-- Drop leading whitespace characters from a character list. -/
def dropWs : List Char → List Char
  | [] => []
  | c :: cs => if isWs c then dropWs cs else c :: cs

/-- Model of the JavaScript String.prototype.trim used at conversation.tsx
lines 125, 137, 250 and 254: strip whitespace from both ends. -/
def jsTrim (s : String) : String :=
  String.mk (dropWs ((dropWs s.data.reverse).reverse))

/-- Strict code-point comparison of two characters. -/
def charLtb (a b : Char) : Bool := a.val.toNat < b.val.toNat

/-- Lexicographic less-or-equal on character lists. -/
def listLe : List Char → List Char → Bool
  | [], _ => true
  | _ :: _, [] => false
  | a :: as, b :: bs =>
    if charLtb a b then true else if charLtb b a then false else listLe as bs

/-- Lexicographic string less-or-equal, the order by which the store sorts
ISO-8601 timestamp strings for the orderBy('timestamp', 'asc') query. -/
def strLe (a b : String) : Bool := listLe a.data b.data

/-! ## Conversation data model (conversation.tsx lines 11-22) -/

/-- The Message interface of conversation.tsx: the shape of an entry of the
local message list.  The optional TypeScript fields edited / editedAt are
defaulted to false / none exactly where the source defaults them. -/
structure Message where
  id : String
  senderId : String
  senderName : String
  receiverId : String
  receiverName : String
  content : String
  timestamp : String
  read : Bool
  edited : Bool
  editedAt : Option String
deriving Repr, DecidableEq

/-- The messageData record built by handleSendMessage (lines 132-140): the
payload of the store create call, without an id. -/
structure MessageData where
  senderId : String
  senderName : String
  receiverId : String
  receiverName : String
  content : String
  timestamp : String
  read : Bool
deriving Repr, DecidableEq

/-- The slice of the user profile document read by handleSendMessage:
userData.name, which may be absent or empty (both falsy in JavaScript). -/
structure UserData where
  name : Option String
deriving Repr, DecidableEq

/-- A message document as stored in the messages collection: document id
plus data fields, where read / edited / editedAt may be absent. -/
structure StoredMessage where
  id : String
  senderId : String
  senderName : String
  receiverId : String
  receiverName : String
  content : String
  timestamp : String
  read : Option Bool
  edited : Option Bool
  editedAt : Option String
deriving Repr, DecidableEq

/-- The local React state of ConversationScreen that the embedded handlers
read or write (messages, newMessage, sending, userData, editing and
selection state, and whether an alert dialog is showing). -/
structure ConvState where
  messages : List Message
  newMessage : String
  sending : Bool
  userData : Option UserData
  editingMessage : Option Message
  editText : String
  showEditModal : Bool
  showActionSheet : Bool
  selectedMessage : Option Message
  alertVisible : Bool
deriving Repr, DecidableEq

/-- Events of one run of handleSendMessage, in program order: the store
create call being issued, the awaited create resolving (store confirmation),
and the local append of the synthesized message copy. -/
inductive SendEvent where
  | createCall (data : MessageData)
  | createConfirmed
  | localAppend (m : Message)
deriving Repr, DecidableEq

/-- Store writes issued by the load, edit and delete handlers. -/
inductive StoreEffect where
  | markRead (id : String)
  | updateMessage (id : String) (content : String) (editedAt : String)
  | deleteMessage (id : String)
deriving Repr, DecidableEq

/-- JavaScript userData.name || 'Unknown' (line 134): absent or empty name
falls back to the literal Unknown. -/
def nameOrUnknown : Option String → String
  | some n => if n = "" then "Unknown" else n
  | none => "Unknown"

/-- JavaScript x || false for an optional stored Boolean (lines 95-96). -/
def orFalse : Option Bool → Bool
  | some b => b
  | none => false

/-- JavaScript x || undefined for an optional stored string (line 97): an
empty string is falsy and collapses to undefined. -/
def orUndef : Option String → Option String
  | some s => if s = "" then none else some s
  | none => none

/-- Embedding of handleSendMessage (conversation.tsx lines 124-175).
Parameters: the current authenticated uid (none when signed out), the
otherUserId / otherUserName route params, the ISO timestamp produced by
new Date().toISOString(), the Date.now().toString() temporary id, and
whether the awaited store add succeeds.  Returns the new local state and
the ordered event list of the run.  The early return at line 125 fires
when the trimmed text is empty or the profile is not loaded; the finally
block always leaves sending = false on every path that passed the guard. -/
def handleSendMessage (currentUser : Option String)
    (otherUserId otherUserName nowISO nowIdStr : String)
    (storeOk : Bool) (st : ConvState) : ConvState × List SendEvent :=
  if jsTrim st.newMessage = "" then (st, [])
  else
    match st.userData with
    | none => (st, [])
    | some ud =>
      match currentUser with
      | none => ({ st with sending := false }, [])
      | some uid =>
        let messageData : MessageData :=
          { senderId := uid
            senderName := nameOrUnknown ud.name
            receiverId := otherUserId
            receiverName := otherUserName
            content := jsTrim st.newMessage
            timestamp := nowISO
            read := false }
        if storeOk then
          let newMessageObj : Message :=
            { id := nowIdStr
              senderId := messageData.senderId
              senderName := messageData.senderName
              receiverId := messageData.receiverId
              receiverName := messageData.receiverName
              content := messageData.content
              timestamp := messageData.timestamp
              read := messageData.read
              edited := false
              editedAt := none }
          ({ st with
              messages := st.messages ++ [newMessageObj]
              newMessage := ""
              sending := false },
           [SendEvent.createCall messageData, SendEvent.createConfirmed,
            SendEvent.localAppend newMessageObj])
        else
          ({ st with sending := false, alertVisible := true },
           [SendEvent.createCall messageData])

/-- The store-level query filter of loadMessages (lines 73-74): senderId and
receiverId each drawn from the pair of user ids. -/
def queryFilter (userId otherUserId : String) (d : StoredMessage) : Bool :=
  (d.senderId = userId || d.senderId = otherUserId) &&
  (d.receiverId = userId || d.receiverId = otherUserId)

/-- The local exact-pair filter of loadMessages (lines 84-85). -/
def exactPair (userId otherUserId : String) (d : StoredMessage) : Bool :=
  (d.senderId = userId && d.receiverId = otherUserId) ||
  (d.senderId = otherUserId && d.receiverId = userId)

/-- Timestamp comparison used by the orderBy('timestamp', 'asc') clause. -/
def tsLe (a b : StoredMessage) : Bool := strLe a.timestamp b.timestamp

/-- Insert one document into a timestamp-sorted document list. -/
def insertByTimestamp (d : StoredMessage) : List StoredMessage → List StoredMessage
  | [] => [d]
  | e :: es => if tsLe d e then d :: e :: es else e :: insertByTimestamp d es

/-- Model of the orderBy('timestamp', 'asc') clause of the query (line 75):
sort the matching documents by timestamp, ascending. -/
def orderByTimestampAsc : List StoredMessage → List StoredMessage
  | [] => []
  | d :: ds => insertByTimestamp d (orderByTimestampAsc ds)

/-- Conversion of a fetched document to a local Message (lines 87-98),
defaulting the falsy read / edited / editedAt fields as the source does. -/
def toLoadedMessage (d : StoredMessage) : Message :=
  { id := d.id
    senderId := d.senderId
    senderName := d.senderName
    receiverId := d.receiverId
    receiverName := d.receiverName
    content := d.content
    timestamp := d.timestamp
    read := orFalse d.read
    edited := orFalse d.edited
    editedAt := orUndef d.editedAt }

/-- The for-loop of loadMessages (lines 80-111): walk the fetched documents
in query order, keep exactly those between the two users, and issue a
mark-as-read update for every kept document addressed to the current user
that is not yet read. -/
def loadLoop (userId otherUserId : String) :
    List StoredMessage → List Message × List StoreEffect
  | [] => ([], [])
  | d :: ds =>
    let rest := loadLoop userId otherUserId ds
    if exactPair userId otherUserId d then
      (toLoadedMessage d :: rest.1,
       (if d.receiverId = userId && !(orFalse d.read)
        then [StoreEffect.markRead d.id] else []) ++ rest.2)
    else rest

/-- Embedding of loadMessages (conversation.tsx lines 68-122): the store
evaluates the superset query and returns the matches ordered by timestamp
ascending; the loop then filters to the exact pair and builds the local
list, together with the mark-as-read store writes. -/
def loadMessages (userId otherUserId : String) (store : List StoredMessage) :
    List Message × List StoreEffect :=
  loadLoop userId otherUserId
    (orderByTimestampAsc (store.filter (queryFilter userId otherUserId)))

/-- Embedding of handleLongPress (conversation.tsx lines 187-193): the entry
point of the edit and delete actions; returns without selecting anything
when there is no current user or the message was not sent by them. -/
def handleLongPress (currentUser : Option String) (m : Message)
    (st : ConvState) : ConvState :=
  match currentUser with
  | none => st
  | some uid =>
    if m.senderId ≠ uid then st
    else { st with selectedMessage := some m, showActionSheet := true }

/-- Embedding of handleEditMessage (lines 195-202): opens the edit modal
for the currently selected message. -/
def handleEditMessage (st : ConvState) : ConvState :=
  match st.selectedMessage with
  | none => st
  | some sm =>
    { st with
        editingMessage := some sm
        editText := sm.content
        showEditModal := true
        showActionSheet := false }

/-- Embedding of the confirmed branch of handleDeleteMessage (lines 204-247):
the destructive Delete action of the confirmation dialog, with
selectedMessage required by the guard at line 205 and captured by the
closure.  On success the action sheet, the selection and the alert are
cleared; the messages list itself is not touched by any path. -/
def confirmDelete (storeOk : Bool) (st : ConvState) : ConvState × List StoreEffect :=
  match st.selectedMessage with
  | none => (st, [])
  | some sm =>
    if storeOk then
      ({ st with
          showActionSheet := false
          selectedMessage := none
          alertVisible := false },
       [StoreEffect.deleteMessage sm.id])
    else
      ({ st with alertVisible := true }, [StoreEffect.deleteMessage sm.id])

/-- Embedding of handleSaveEdit (conversation.tsx lines 249-278): guard at
line 250, then a single store update of content, edited and editedAt; the
modal state is cleared only when the update succeeds. -/
def handleSaveEdit (nowISO : String) (storeOk : Bool) (st : ConvState) :
    ConvState × List StoreEffect :=
  match st.editingMessage with
  | none => (st, [])
  | some em =>
    if jsTrim st.editText = "" then (st, [])
    else if storeOk then
      ({ st with showEditModal := false, editingMessage := none, editText := "" },
       [StoreEffect.updateMessage em.id (jsTrim st.editText) nowISO])
    else
      ({ st with alertVisible := true },
       [StoreEffect.updateMessage em.id (jsTrim st.editText) nowISO])

/-! ## Notification badge (NotificationBadge component, admin-dashboard.tsx
lines 613-722 of the concatenated source) -/

/-- The notificationData object embedded in the user profile document:
unreadCount (a number, absent treated as 0 by the || 0 default) and the two
timestamps, each possibly absent.  Timestamps are modelled as epoch
milliseconds. -/
structure NotificationData where
  unreadCount : Option Int
  lastNotificationTime : Option Int
  lastSeenTime : Option Int
deriving Repr, DecidableEq

/-- The local React state of the badge component: the unreadCount and
hasNewNotifications values. -/
structure BadgeState where
  unreadCount : Int
  hasNewNotifications : Bool
deriving Repr, DecidableEq

/-- Embedding of the onSnapshot handler (lines 645-665): on each delivered
profile update, set the local unreadCount to the stored counter (default 0)
and derive hasNewNotifications: compare the two timestamps when both are
present, otherwise fall back to unread > 0. -/
def onSnapshotUpdate (nd : NotificationData) : BadgeState :=
  let unread := nd.unreadCount.getD 0
  { unreadCount := unread
    hasNewNotifications :=
      match nd.lastNotificationTime, nd.lastSeenTime with
      | some nt, some seen => decide (seen < nt)
      | _, _ => decide (0 < unread) }

/-- Effects of the badge press handler: the navigation (or the injected
onPress callback) and the store update writing lastSeenTime and a zero
unreadCount to the profile document. -/
inductive BadgeEffect where
  | navigate
  | updateSeen (uid : String) (lastSeenTime : Int) (unreadCount : Int)
deriving Repr, DecidableEq

/-- Embedding of handlePress (lines 674-695): navigate, then, when a user
is signed in, issue the store update writing lastSeenTime = now and
unreadCount = 0; only when that update succeeds is the local
hasNewNotifications cleared.  No path touches the local unreadCount. -/
def handlePress (currentUser : Option String) (now : Int) (storeOk : Bool)
    (st : BadgeState) : BadgeState × List BadgeEffect :=
  match currentUser with
  | none => (st, [BadgeEffect.navigate])
  | some uid =>
    if storeOk then
      ({ st with hasNewNotifications := false },
       [BadgeEffect.navigate, BadgeEffect.updateSeen uid now 0])
    else
      (st, [BadgeEffect.navigate, BadgeEffect.updateSeen uid now 0])

/-! ## Admin analytics aggregation (calculateAnalytics, admin-dashboard.tsx
lines 122-160) -/

/-- A JavaScript number that is either an integer or NaN.  NaN arises when
the ++ operator is applied to an absent object property (undefined). -/
inductive JsNum where
  | nan
  | int (n : Int)
deriving Repr, DecidableEq

/-- A JavaScript object with integer keys, as used for ratingDistribution:
a key is either absent or holds a number. -/
def JsObj : Type := Int → Option JsNum

/-- The initializer at line 124: an object holding 0 at the keys 1 to 5 and
nothing elsewhere. -/
def initRatingDistribution : JsObj := fun k =>
  if k = 1 ∨ k = 2 ∨ k = 3 ∨ k = 4 ∨ k = 5 then some (JsNum.int 0) else none

/-- Property write o[k] = v on a JavaScript object. -/
def jsSet (o : JsObj) (k : Int) (v : JsNum) : JsObj :=
  fun q => if q = k then some v else o q

/-- The o[k]++ operation of line 128: an integer value is incremented, an
absent key (undefined) or a NaN value becomes NaN. -/
def jsIncrement (o : JsObj) (k : Int) : JsObj :=
  jsSet o k
    (match o k with
     | some (JsNum.int n) => JsNum.int (n + 1)
     | _ => JsNum.nan)

/-- The feedback.forEach loop of lines 127-130, restricted to the
distribution object: one increment per feedback rating, left to right. -/
def buildRatingDistribution : JsObj → List Int → JsObj
  | o, [] => o
  | o, r :: rs => buildRatingDistribution (jsIncrement o r) rs

/-- The ratingDistribution computed by calculateAnalytics over the ratings
of the fetched feedback records. -/
def ratingDistribution (ratings : List Int) : JsObj :=
  buildRatingDistribution initRatingDistribution ratings

/-- The totalRating accumulator of lines 125-129: the running sum of the
ratings. -/
def totalRating (ratings : List Int) : Int := ratings.foldl (· + ·) 0

/-- The averageRating of line 155: totalRating divided by the number of
records when there is at least one, otherwise 0.  The JavaScript floating
division is modelled by exact rational division. -/
def averageRating (ratings : List Int) : ℚ :=
  if 0 < ratings.length then (totalRating ratings : ℚ) / (ratings.length : ℚ)
  else 0

/-! ## Helper lemmas: the lexicographic string order is total and transitive -/

theorem listLe_total (a b : List Char) : listLe a b = true ∨ listLe b a = true := by
  induction a generalizing b with
  | nil => left; rfl
  | cons x xs ih =>
    cases b with
    | nil => right; rfl
    | cons y ys =>
      by_cases hxy : charLtb x y = true
      · left; simp [listLe, hxy]
      · by_cases hyx : charLtb y x = true
        · right; simp [listLe, hyx]
        · rcases ih ys with h | h
          · left; simp [listLe, hxy, hyx, h]
          · right; simp [listLe, hxy, hyx, h]

theorem listLe_trans {a b c : List Char} (h1 : listLe a b = true)
    (h2 : listLe b c = true) : listLe a c = true := by
  induction a generalizing b c with
  | nil => rfl
  | cons x xs ih =>
    cases b with
    | nil => simp [listLe] at h1
    | cons y ys =>
      cases c with
      | nil => simp [listLe] at h2
      | cons z zs =>
        simp only [listLe] at h1 h2 ⊢
        by_cases hxy : charLtb x y = true
        · by_cases hyz : charLtb y z = true
          · have : charLtb x z = true := by
              simp [charLtb, decide_eq_true_eq] at *; omega
            simp [this]
          · by_cases hzy : charLtb z y = true
            · simp [hyz, hzy] at h2
            · have : charLtb x z = true := by
                simp [charLtb, decide_eq_true_eq] at *; omega
              simp [this]
        · by_cases hyx : charLtb y x = true
          · simp [hxy, hyx] at h1
          · by_cases hyz : charLtb y z = true
            · have : charLtb x z = true := by
                simp [charLtb, decide_eq_true_eq] at *; omega
              simp [this]
            · by_cases hzy : charLtb z y = true
              · simp [hyz, hzy] at h2
              · have hxz : charLtb x z = false := by
                  simp [charLtb, decide_eq_true_eq] at *; omega
                have hzx : charLtb z x = false := by
                  simp [charLtb, decide_eq_true_eq] at *; omega
                simp [hxy, hyx, hyz, hzy] at h1 h2
                simp [hxz, hzx]
                exact ih h1 h2

theorem tsLe_total (a b : StoredMessage) : tsLe a b = true ∨ tsLe b a = true :=
  listLe_total _ _

theorem tsLe_trans {a b c : StoredMessage} (h1 : tsLe a b = true)
    (h2 : tsLe b c = true) : tsLe a c = true :=
  listLe_trans h1 h2

/-! ## Helper lemmas: the timestamp sort produces a sorted permutation -/

theorem mem_insertByTimestamp {d x : StoredMessage} {l : List StoredMessage} :
    x ∈ insertByTimestamp d l ↔ x = d ∨ x ∈ l := by
  induction l with
  | nil => simp [insertByTimestamp]
  | cons e es ih =>
    by_cases hde : tsLe d e = true
    · simp [insertByTimestamp, hde]
    · simp [insertByTimestamp, hde, ih]
      tauto

theorem pairwise_insertByTimestamp {d : StoredMessage} {l : List StoredMessage}
    (hl : l.Pairwise (fun a b => tsLe a b = true)) :
    (insertByTimestamp d l).Pairwise (fun a b => tsLe a b = true) := by
  induction l with
  | nil => simp [insertByTimestamp]
  | cons e es ih =>
    rcases List.pairwise_cons.mp hl with ⟨he, hes⟩
    by_cases hde : tsLe d e = true
    · rw [insertByTimestamp, if_pos hde]
      refine List.pairwise_cons.mpr ⟨?_, hl⟩
      intro x hx
      rcases List.mem_cons.mp hx with rfl | hx
      · exact hde
      · exact tsLe_trans hde (he x hx)
    · rw [insertByTimestamp, if_neg hde]
      have hed : tsLe e d = true := by
        rcases tsLe_total d e with h | h
        · exact absurd h hde
        · exact h
      refine List.pairwise_cons.mpr ⟨?_, ih hes⟩
      intro x hx
      rcases mem_insertByTimestamp.mp hx with rfl | hx
      · exact hed
      · exact he x hx

theorem pairwise_orderByTimestampAsc (l : List StoredMessage) :
    (orderByTimestampAsc l).Pairwise (fun a b => tsLe a b = true) := by
  induction l with
  | nil => simp [orderByTimestampAsc]
  | cons d ds ih => exact pairwise_insertByTimestamp ih

/-! ## Helper lemma: the load loop keeps exactly the exact-pair documents -/

theorem loadLoop_messages (u o : String) (l : List StoredMessage) :
    (loadLoop u o l).1 = (l.filter (exactPair u o)).map toLoadedMessage := by
  induction l with
  | nil => rfl
  | cons d ds ih =>
    by_cases h : exactPair u o d = true
    · simp [loadLoop, h, ih]
    · simp [loadLoop, h, ih]

/-! ## Event-trace predicates for the send handler -/

/-- Recognize the local-append event. -/
def isLocalAppend : SendEvent → Bool
  | SendEvent.localAppend _ => true
  | _ => false

/-- Recognize the store-confirmation event. -/
def isCreateConfirmed : SendEvent → Bool
  | SendEvent.createConfirmed => true
  | _ => false

/-- The payloads of the store create calls of a send trace. -/
def createCalls (tr : List SendEvent) : List MessageData :=
  tr.filterMap fun e =>
    match e with
    | SendEvent.createCall d => some d
    | _ => none

/-- Whether position i of the trace holds an event satisfying p. -/
def eventAt (tr : List SendEvent) (i : Nat) (p : SendEvent → Bool) : Bool :=
  match tr[i]? with
  | some e => p e
  | none => false

/-- Some local append is strictly earlier in the trace than some store
confirmation. -/
def appendBeforeConfirmB (tr : List SendEvent) : Bool :=
  (List.range tr.length).any fun i =>
    (List.range tr.length).any fun j =>
      decide (i < j) && eventAt tr i isLocalAppend && eventAt tr j isCreateConfirmed

/-- Every local append in the trace is preceded by a store confirmation. -/
def confirmBeforeEachAppendB (tr : List SendEvent) : Bool :=
  (List.range tr.length).all fun j =>
    !(eventAt tr j isLocalAppend) ||
    ((List.range j).any fun i => eventAt tr i isCreateConfirmed)

/-! ## Concrete demonstration inputs used by witnesses and counterexamples -/

/-- A concrete message sent by user u1 to user u2. -/
def demoMsg : Message :=
  { id := "m1"
    senderId := "u1"
    senderName := "Alice"
    receiverId := "u2"
    receiverName := "Bob"
    content := "hello"
    timestamp := "2024-01-01T00:00:00.000Z"
    read := false
    edited := false
    editedAt := none }

/-- A conversation state about to send the text " hi " with a loaded
profile. -/
def demoSendState : ConvState :=
  { messages := []
    newMessage := " hi "
    sending := false
    userData := some { name := some "Alice" }
    editingMessage := none
    editText := ""
    showEditModal := false
    showActionSheet := false
    selectedMessage := none
    alertVisible := false }

/-- A conversation state in which demoMsg is listed and selected and the
delete confirmation dialog is showing. -/
def demoDeleteState : ConvState :=
  { messages := [demoMsg]
    newMessage := ""
    sending := false
    userData := some { name := some "Alice" }
    editingMessage := none
    editText := ""
    showEditModal := false
    showActionSheet := true
    selectedMessage := some demoMsg
    alertVisible := true }

/-- An idle conversation state with nothing selected and nothing being
edited. -/
def demoIdleState : ConvState :=
  { messages := [demoMsg]
    newMessage := ""
    sending := false
    userData := some { name := some "Alice" }
    editingMessage := none
    editText := ""
    showEditModal := false
    showActionSheet := false
    selectedMessage := none
    alertVisible := false }

/-- A concrete store content: two documents of the u1-u2 conversation out
of timestamp order, plus a self-addressed u1 document that the superset
query admits but the exact-pair filter must drop. -/
def demoStore : List StoredMessage :=
  [ { id := "m2", senderId := "u2", senderName := "Bob", receiverId := "u1",
      receiverName := "Alice", content := "hey",
      timestamp := "2024-01-02T00:00:00.000Z",
      read := some false, edited := none, editedAt := none }
  , { id := "m1", senderId := "u1", senderName := "Alice", receiverId := "u2",
      receiverName := "Bob", content := "hi",
      timestamp := "2024-01-01T00:00:00.000Z",
      read := none, edited := none, editedAt := none }
  , { id := "m4", senderId := "u1", senderName := "Alice", receiverId := "u1",
      receiverName := "Alice", content := "note to self",
      timestamp := "2024-01-04T00:00:00.000Z",
      read := none, edited := none, editedAt := none } ]

/-- The loaded form of the m1 document of demoStore. -/
def demoLoadedMsg : Message :=
  toLoadedMessage
    { id := "m1", senderId := "u1", senderName := "Alice", receiverId := "u2",
      receiverName := "Bob", content := "hi",
      timestamp := "2024-01-01T00:00:00.000Z",
      read := none, edited := none, editedAt := none }

/-! ## Claim theorems for the conversation view-model -/

/-- Claim C1: for every non-empty, non-whitespace-only message text, with a
loaded user profile and a signed-in user, a successful send appends exactly
one new entry to the end of the local ordered message list and issues
exactly one store create call whose content is the trimmed text and whose
read flag is false. -/
theorem send_appends_one_and_creates_one (currentUser : Option String)
    (otherUserId otherUserName nowISO nowIdStr : String) (st : ConvState)
    (ud : UserData) (uid : String)
    (hud : st.userData = some ud) (huid : currentUser = some uid)
    (htext : jsTrim st.newMessage ≠ "") :
    (∃ m : Message,
       (handleSendMessage currentUser otherUserId otherUserName nowISO nowIdStr
         true st).1.messages = st.messages ++ [m] ∧
       m.content = jsTrim st.newMessage ∧ m.read = false) ∧
    (∃ d : MessageData,
       createCalls (handleSendMessage currentUser otherUserId otherUserName nowISO
         nowIdStr true st).2 = [d] ∧
       d.content = jsTrim st.newMessage ∧ d.read = false) := by
  subst huid
  simp only [handleSendMessage, if_neg htext, hud]
  exact ⟨⟨_, rfl, rfl, rfl⟩, ⟨_, rfl, rfl, rfl⟩⟩

/-- Witness for C1 at a concrete state sending the text " hi ". -/
theorem send_appends_one_witness :
    (∃ m : Message,
       (handleSendMessage (some "u1") "u2" "Bob" "2024-01-05T00:00:00.000Z"
         "1700000000000" true demoSendState).1.messages
         = demoSendState.messages ++ [m] ∧
       m.content = jsTrim demoSendState.newMessage ∧ m.read = false) ∧
    (∃ d : MessageData,
       createCalls (handleSendMessage (some "u1") "u2" "Bob"
         "2024-01-05T00:00:00.000Z" "1700000000000" true demoSendState).2 = [d] ∧
       d.content = jsTrim demoSendState.newMessage ∧ d.read = false) :=
  send_appends_one_and_creates_one (some "u1") "u2" "Bob"
    "2024-01-05T00:00:00.000Z" "1700000000000" demoSendState
    { name := some "Alice" } "u1" rfl rfl (by decide)

/-- Claim C2: after load(otherUserId), every message of the resulting local
list has its sender and receiver equal, as an unordered pair, to the pair
of the two conversation users, and the list is ordered non-decreasing by
timestamp. -/
theorem load_exact_pair_and_sorted (userId otherUserId : String)
    (store : List StoredMessage) :
    (∀ m ∈ (loadMessages userId otherUserId store).1,
       (m.senderId = userId ∧ m.receiverId = otherUserId) ∨
       (m.senderId = otherUserId ∧ m.receiverId = userId)) ∧
    ((loadMessages userId otherUserId store).1).Pairwise
      (fun a b => strLe a.timestamp b.timestamp = true) := by
  constructor
  · intro m hm
    rw [loadMessages, loadLoop_messages] at hm
    rcases List.mem_map.mp hm with ⟨d, hd, rfl⟩
    have h2 := (List.mem_filter.mp hd).2
    simp only [exactPair, Bool.or_eq_true, Bool.and_eq_true,
      decide_eq_true_eq] at h2
    simpa [toLoadedMessage] using h2
  · rw [loadMessages, loadLoop_messages]
    exact List.Pairwise.map toLoadedMessage (fun a b hab => hab)
      ((pairwise_orderByTimestampAsc _).filter _)

/-- Witness for C2 at the concrete store demoStore. -/
theorem load_exact_pair_witness :
    (demoLoadedMsg ∈ (loadMessages "u1" "u2" demoStore).1 ∧
     ((demoLoadedMsg.senderId = "u1" ∧ demoLoadedMsg.receiverId = "u2") ∨
      (demoLoadedMsg.senderId = "u2" ∧ demoLoadedMsg.receiverId = "u1"))) ∧
    ((loadMessages "u1" "u2" demoStore).1).Pairwise
      (fun a b => strLe a.timestamp b.timestamp = true) :=
  ⟨⟨by decide,
    (load_exact_pair_and_sorted "u1" "u2" demoStore).1 demoLoadedMsg (by decide)⟩,
   (load_exact_pair_and_sorted "u1" "u2" demoStore).2⟩

/-- Counterexample to claim C3 as stated: from a state in which demoMsg is
listed and selected, the confirmed successful delete issues the single
store delete call keyed by the id of the message, yet the message is still
in the local message list afterwards (the success path of
handleDeleteMessage never writes the messages state), refuting the removal
asserted by the claim. -/
theorem delete_keeps_local_list_counterexample :
    (confirmDelete true demoDeleteState).2
      = [StoreEffect.deleteMessage demoMsg.id] ∧
    (confirmDelete true demoDeleteState).1.messages = [demoMsg] ∧
    demoMsg ∈ (confirmDelete true demoDeleteState).1.messages := by
  decide

/-- Claim C3 as amended: when the delete action is confirmed and the store
delete succeeds, exactly one store delete call keyed by the id of the
selected message is issued, the selection, action sheet and alert are
cleared, but the local message list is unchanged. -/
theorem delete_one_call_list_unchanged (st : ConvState) (sm : Message)
    (hsel : st.selectedMessage = some sm) :
    (confirmDelete true st).2 = [StoreEffect.deleteMessage sm.id] ∧
    (confirmDelete true st).1.messages = st.messages ∧
    (confirmDelete true st).1.selectedMessage = none ∧
    (confirmDelete true st).1.showActionSheet = false := by
  simp only [confirmDelete, hsel]
  exact ⟨rfl, rfl, rfl, rfl⟩

/-- Witness for the amended C3 at the concrete state demoDeleteState. -/
theorem delete_one_call_witness :
    (confirmDelete true demoDeleteState).2
      = [StoreEffect.deleteMessage demoMsg.id] ∧
    (confirmDelete true demoDeleteState).1.messages = demoDeleteState.messages ∧
    (confirmDelete true demoDeleteState).1.selectedMessage = none ∧
    (confirmDelete true demoDeleteState).1.showActionSheet = false :=
  delete_one_call_list_unchanged demoDeleteState demoMsg rfl

/-- Counterexample to claim C6 as stated: a concrete successful send whose
event trace contains both a local append and a store confirmation, but in
which no local append precedes a store confirmation: the source awaits the
store add before appending, so the append follows the confirmation. -/
theorem append_before_confirm_counterexample :
    ((handleSendMessage (some "u1") "u2" "Bob" "2024-01-05T00:00:00.000Z"
        "1700000000000" true demoSendState).2.any isLocalAppend = true) ∧
    ((handleSendMessage (some "u1") "u2" "Bob" "2024-01-05T00:00:00.000Z"
        "1700000000000" true demoSendState).2.any isCreateConfirmed = true) ∧
    appendBeforeConfirmB (handleSendMessage (some "u1") "u2" "Bob"
      "2024-01-05T00:00:00.000Z" "1700000000000" true demoSendState).2 = false := by
  decide

/-- Claim C6 as amended: in every run of the send handler, every local
append of the synthesized message copy is preceded in the event trace by
the store create confirmation; the append is therefore not optimistic with
respect to the write, only the appended id is locally synthesized. -/
theorem confirm_precedes_append (currentUser : Option String)
    (otherUserId otherUserName nowISO nowIdStr : String) (storeOk : Bool)
    (st : ConvState) :
    confirmBeforeEachAppendB (handleSendMessage currentUser otherUserId
      otherUserName nowISO nowIdStr storeOk st).2 = true := by
  obtain ⟨msgs, nm, snd, udat, em, et, sem, sas, selm, av⟩ := st
  by_cases h1 : jsTrim nm = ""
  · simp only [handleSendMessage, if_pos h1]
    rfl
  · simp only [handleSendMessage, if_neg h1]
    cases udat with
    | none => rfl
    | some ud =>
      cases currentUser with
      | none => rfl
      | some uid =>
        cases storeOk with
        | false => rfl
        | true => rfl

/-- Claim C7: for empty or whitespace-only text, both the send handler and
the save-edit handler are no-ops: no store call and an unchanged state. -/
theorem empty_text_noops (currentUser : Option String)
    (otherUserId otherUserName nowISO nowIdStr editNowISO : String)
    (storeOk editStoreOk : Bool) (st : ConvState)
    (hsend : jsTrim st.newMessage = "") (hedit : jsTrim st.editText = "") :
    handleSendMessage currentUser otherUserId otherUserName nowISO nowIdStr
      storeOk st = (st, []) ∧
    handleSaveEdit editNowISO editStoreOk st = (st, []) := by
  constructor
  · simp only [handleSendMessage, if_pos hsend]
  · obtain ⟨msgs, nm, snd, udat, em, et, sem, sas, selm, av⟩ := st
    cases em with
    | none => rfl
    | some m =>
      simp only [handleSaveEdit] at hedit ⊢
      rw [if_pos hedit]

/-- Witness for C7 at a concrete state whose draft texts are whitespace. -/
theorem empty_text_noops_witness :
    handleSendMessage (some "u1") "u2" "Bob" "2024-01-05T00:00:00.000Z"
      "1700000000000" true demoIdleState = (demoIdleState, []) ∧
    handleSaveEdit "2024-01-06T00:00:00.000Z" true demoIdleState
      = (demoIdleState, []) :=
  empty_text_noops (some "u1") "u2" "Bob" "2024-01-05T00:00:00.000Z"
    "1700000000000" "2024-01-06T00:00:00.000Z" true true demoIdleState
    (by decide) (by decide)

/-- Claim C8: a long press on a message whose sender differs from the
current session identity is rejected at that point: the state is unchanged,
and the edit flow started from it issues no store update for that
message (nor any store call at all). -/
theorem edit_rejected_nonsender (uid : String) (m : Message) (st : ConvState)
    (nowISO : String) (storeOk : Bool)
    (hsender : m.senderId ≠ uid)
    (hsel : st.selectedMessage = none) (hedit : st.editingMessage = none) :
    handleLongPress (some uid) m st = st ∧
    handleSaveEdit nowISO storeOk
      (handleEditMessage (handleLongPress (some uid) m st)) = (st, []) := by
  have hlp : handleLongPress (some uid) m st = st := by
    simp only [handleLongPress, if_pos hsender]
  have hem : handleEditMessage st = st := by
    simp only [handleEditMessage, hsel]
  refine ⟨hlp, ?_⟩
  rw [hlp, hem]
  simp only [handleSaveEdit, hedit]

/-- Witness for C8: the signed-in user u9 long-presses the message of u1. -/
theorem edit_rejected_nonsender_witness :
    handleLongPress (some "u9") demoMsg demoIdleState = demoIdleState ∧
    handleSaveEdit "2024-01-06T00:00:00.000Z" true
      (handleEditMessage (handleLongPress (some "u9") demoMsg demoIdleState))
      = (demoIdleState, []) :=
  edit_rejected_nonsender "u9" demoMsg demoIdleState
    "2024-01-06T00:00:00.000Z" true (by decide) rfl rfl

/-! ## Claim theorems for the notification badge -/

/-- Counterexample to claim C4 as stated: from local state unreadCount = 5,
hasNew = true, the seen action (signed-in user, successful store write)
leaves the local unreadCount at 5, not 0: the handler writes 0 to the store
but only clears hasNewNotifications locally, so the local unreadCount waits
for the subscription to re-deliver. -/
theorem seen_local_unread_counterexample :
    (handlePress (some "u1") 1000 true
      { unreadCount := 5, hasNewNotifications := true }).1.unreadCount ≠ 0 := by
  decide

/-- Claim C4 as amended: for every prior local state, the seen action with a
signed-in user and a successful store write immediately sets the local
hasNew flag to false without waiting for the subscription, issues exactly
one store update writing lastSeenTime = now and unreadCount = 0, and leaves
the local unreadCount unchanged until the subscription re-delivers. -/
theorem seen_clears_hasnew_only (currentUser : Option String) (uid : String)
    (now : Int) (st : BadgeState) (huid : currentUser = some uid) :
    (handlePress currentUser now true st).1.hasNewNotifications = false ∧
    (handlePress currentUser now true st).1.unreadCount = st.unreadCount ∧
    (handlePress currentUser now true st).2
      = [BadgeEffect.navigate, BadgeEffect.updateSeen uid now 0] := by
  subst huid
  exact ⟨rfl, rfl, rfl⟩

/-- Witness for the amended C4 from the state unreadCount = 5, hasNew =
true. -/
theorem seen_clears_hasnew_witness :
    (handlePress (some "u1") 1000 true
      { unreadCount := 5, hasNewNotifications := true }).1.hasNewNotifications
      = false ∧
    (handlePress (some "u1") 1000 true
      { unreadCount := 5, hasNewNotifications := true }).1.unreadCount
      = ({ unreadCount := 5, hasNewNotifications := true } : BadgeState).unreadCount ∧
    (handlePress (some "u1") 1000 true
      { unreadCount := 5, hasNewNotifications := true }).2
      = [BadgeEffect.navigate, BadgeEffect.updateSeen "u1" 1000 0] :=
  seen_clears_hasnew_only (some "u1") "u1" 1000
    { unreadCount := 5, hasNewNotifications := true } rfl

/-- Counterexample to claim C5 as stated: a delivered profile update with
lastSeenTime present, lastNotificationTime absent and unreadCount = 3
yields hasNew = true, where the claim asserts hasNew is false whenever
lastSeenTime is present but lastNotificationTime is absent: the source
falls back to the unread > 0 test whenever either timestamp is absent. -/
theorem hasnew_missing_timestamp_counterexample :
    (onSnapshotUpdate
      { unreadCount := some 3, lastNotificationTime := none,
        lastSeenTime := some 50 }).hasNewNotifications = true := by
  decide

/-- Claim C5 as amended: on every delivered profile update, the derived
hasNew flag is lastNotificationTime > lastSeenTime when both timestamps are
present, and unreadCount > 0 whenever either timestamp is absent. -/
theorem hasnew_derivation (nd : NotificationData) :
    (∀ nt seen : Int, nd.lastNotificationTime = some nt →
       nd.lastSeenTime = some seen →
       ((onSnapshotUpdate nd).hasNewNotifications = true ↔ seen < nt)) ∧
    ((nd.lastNotificationTime = none ∨ nd.lastSeenTime = none) →
       ((onSnapshotUpdate nd).hasNewNotifications = true ↔
         0 < nd.unreadCount.getD 0)) := by
  obtain ⟨u, lnt, lst⟩ := nd
  constructor
  · intro nt seen h1 h2
    simp only at h1 h2
    subst h1; subst h2
    simp [onSnapshotUpdate]
  · intro h
    cases lnt with
    | none => simp [onSnapshotUpdate]
    | some nt =>
      cases lst with
      | none => simp [onSnapshotUpdate]
      | some seen => simp at h

/-- Witness for the amended C5, applied once with both timestamps present
and once with lastNotificationTime absent. -/
theorem hasnew_derivation_witness :
    ((onSnapshotUpdate
       { unreadCount := some 2, lastNotificationTime := some 100,
         lastSeenTime := some 50 }).hasNewNotifications = true ↔ (50 : Int) < 100) ∧
    ((onSnapshotUpdate
       { unreadCount := some 3, lastNotificationTime := none,
         lastSeenTime := some 50 }).hasNewNotifications = true ↔
       (0 : Int) < (Option.getD (some 3) 0)) :=
  ⟨(hasnew_derivation
      { unreadCount := some 2, lastNotificationTime := some 100,
        lastSeenTime := some 50 }).1 100 50 rfl rfl,
   (hasnew_derivation
      { unreadCount := some 3, lastNotificationTime := none,
        lastSeenTime := some 50 }).2 (Or.inl rfl)⟩

/-! ## Helper lemmas for the rating aggregation -/

/-- Running the increment loop over a ratings list adds, at every key
currently holding an integer, the number of occurrences of that key. -/
theorem buildRatingDistribution_get (rs : List Int) (o : JsObj) (k : Int)
    (n : Int) (h : o k = some (JsNum.int n)) :
    buildRatingDistribution o rs k = some (JsNum.int (n + rs.count k)) := by
  induction rs generalizing o n with
  | nil => simpa using h
  | cons r rs ih =>
    by_cases hrk : r = k
    · subst hrk
      have h2 : jsIncrement o r r = some (JsNum.int (n + 1)) := by
        simp [jsIncrement, jsSet, h]
      have h3 := ih (jsIncrement o r) (n + 1) h2
      rw [buildRatingDistribution, h3, List.count_cons_self]
      simp only [Option.some.injEq, JsNum.int.injEq]
      push_cast
      omega
    · have h2 : jsIncrement o r k = some (JsNum.int n) := by
        simp [jsIncrement, jsSet, h, Ne.symm hrk]
      have h3 := ih (jsIncrement o r) n h2
      rw [buildRatingDistribution, h3, List.count_cons_of_ne (Ne.symm hrk)]

/-- The initial distribution holds the integer 0 at every key from 1 to
5. -/
theorem initRatingDistribution_get (k : Int) (h1 : 1 ≤ k) (h2 : k ≤ 5) :
    initRatingDistribution k = some (JsNum.int 0) := by
  have : k = 1 ∨ k = 2 ∨ k = 3 ∨ k = 4 ∨ k = 5 := by omega
  rcases this with rfl | rfl | rfl | rfl | rfl <;> rfl

/-- A list whose elements all lie in 1..5 has as many elements as the five
per-value occurrence counts together. -/
theorem count_sum_eq_length (ratings : List Int)
    (h : ∀ r ∈ ratings, 1 ≤ r ∧ r ≤ 5) :
    ratings.count 1 + ratings.count 2 + ratings.count 3 + ratings.count 4 +
      ratings.count 5 = ratings.length := by
  induction ratings with
  | nil => rfl
  | cons r rs ih =>
    have hr := h r (List.mem_cons_self r rs)
    have hih := ih fun x hx => h x (List.mem_cons_of_mem r hx)
    have hcase : r = 1 ∨ r = 2 ∨ r = 3 ∨ r = 4 ∨ r = 5 := by omega
    rcases hcase with rfl | rfl | rfl | rfl | rfl <;>
      simp only [List.count_cons, List.length_cons] <;> norm_num <;> omega

/-- The totalRating accumulator computes the sum of the ratings. -/
theorem totalRating_eq_sum (ratings : List Int) :
    totalRating ratings = ratings.sum := by
  rw [totalRating, List.sum_eq_foldl]

/-- The final distribution holds, at every key from 1 to 5, exactly the
occurrence count of that key in the ratings list. -/
theorem ratingDistribution_count (ratings : List Int) (k : Int)
    (h1 : 1 ≤ k) (h2 : k ≤ 5) :
    ratingDistribution ratings k = some (JsNum.int (ratings.count k)) := by
  have h0 := initRatingDistribution_get k h1 h2
  have hb := buildRatingDistribution_get ratings initRatingDistribution k 0 h0
  rw [ratingDistribution, hb, zero_add]

/-! ## Claim theorems for the rating aggregation -/

/-- Claim C9: the rating aggregation computes, for each rating key from 1
to 5, the number of records carrying that rating; the accumulated total is
the sum of the ratings and the average is that sum divided by the record
count, 0 for an empty list; in particular the sample ratings
[5, 5, 4, 3, 5, 1] yield the distribution 1, 0, 1, 1, 3 at the keys
1, 2, 3, 4, 5 and the average 23 / 6. -/
theorem rating_aggregation :
    (∀ ratings : List Int, ∀ k : Int, 1 ≤ k → k ≤ 5 →
       ratingDistribution ratings k = some (JsNum.int (ratings.count k))) ∧
    (∀ ratings : List Int, totalRating ratings = ratings.sum) ∧
    (∀ ratings : List Int, ratings ≠ [] →
       averageRating ratings * (ratings.length : ℚ)
         = ((ratings.sum : Int) : ℚ)) ∧
    averageRating [] = 0 ∧
    (ratingDistribution [5, 5, 4, 3, 5, 1] 1 = some (JsNum.int 1) ∧
     ratingDistribution [5, 5, 4, 3, 5, 1] 2 = some (JsNum.int 0) ∧
     ratingDistribution [5, 5, 4, 3, 5, 1] 3 = some (JsNum.int 1) ∧
     ratingDistribution [5, 5, 4, 3, 5, 1] 4 = some (JsNum.int 1) ∧
     ratingDistribution [5, 5, 4, 3, 5, 1] 5 = some (JsNum.int 3)) ∧
    averageRating [5, 5, 4, 3, 5, 1] = 23 / 6 := by
  refine ⟨ratingDistribution_count, totalRating_eq_sum, ?_, rfl,
    ⟨?_, ?_, ?_, ?_, ?_⟩, ?_⟩
  · intro ratings hne
    have hlen : 0 < ratings.length := List.length_pos.mpr hne
    rw [averageRating, if_pos hlen, totalRating_eq_sum]
    have hq : (ratings.length : ℚ) ≠ 0 := by
      exact_mod_cast Nat.pos_iff_ne_zero.mp hlen
    field_simp
  · decide
  · decide
  · decide
  · decide
  · decide
  · rw [averageRating]
    norm_num [totalRating, List.foldl]

/-- Witness for C9 at the ratings list [2, 2]. -/
theorem rating_aggregation_witness :
    ratingDistribution [2, 2] 2
      = some (JsNum.int (([2, 2] : List Int).count 2)) ∧
    averageRating [2, 2] * ((([2, 2] : List Int).length : ℚ))
      = (((([2, 2] : List Int).sum : Int)) : ℚ) :=
  ⟨rating_aggregation.1 [2, 2] 2 (by norm_num) (by norm_num),
   rating_aggregation.2.2.1 [2, 2] (by decide)⟩

/-- Claim C10: under the precondition that every rating lies in 1..5, each
of the five distribution counts is a natural number and their sum is the
number of records; and for a list holding a rating outside 1..5 (here the
list [0]) the increment targets an uninitialized key and the resulting
value is NaN. -/
theorem rating_distribution_welldefined :
    (∀ ratings : List Int, (∀ r ∈ ratings, 1 ≤ r ∧ r ≤ 5) →
       ∃ c1 c2 c3 c4 c5 : ℕ,
         ratingDistribution ratings 1 = some (JsNum.int c1) ∧
         ratingDistribution ratings 2 = some (JsNum.int c2) ∧
         ratingDistribution ratings 3 = some (JsNum.int c3) ∧
         ratingDistribution ratings 4 = some (JsNum.int c4) ∧
         ratingDistribution ratings 5 = some (JsNum.int c5) ∧
         c1 + c2 + c3 + c4 + c5 = ratings.length) ∧
    ratingDistribution [0] 0 = some JsNum.nan := by
  constructor
  · intro ratings h
    refine ⟨ratings.count 1, ratings.count 2, ratings.count 3,
      ratings.count 4, ratings.count 5, ?_, ?_, ?_, ?_, ?_, ?_⟩
    · exact ratingDistribution_count ratings 1 (by norm_num) (by norm_num)
    · exact ratingDistribution_count ratings 2 (by norm_num) (by norm_num)
    · exact ratingDistribution_count ratings 3 (by norm_num) (by norm_num)
    · exact ratingDistribution_count ratings 4 (by norm_num) (by norm_num)
    · exact ratingDistribution_count ratings 5 (by norm_num) (by norm_num)
    · exact count_sum_eq_length ratings h
  · decide

/-- Witness for C10 at the ratings list [1, 5]. -/
theorem rating_distribution_welldefined_witness :
    ∃ c1 c2 c3 c4 c5 : ℕ,
      ratingDistribution [1, 5] 1 = some (JsNum.int c1) ∧
      ratingDistribution [1, 5] 2 = some (JsNum.int c2) ∧
      ratingDistribution [1, 5] 3 = some (JsNum.int c3) ∧
      ratingDistribution [1, 5] 4 = some (JsNum.int c4) ∧
      ratingDistribution [1, 5] 5 = some (JsNum.int c5) ∧
      c1 + c2 + c3 + c4 + c5 = ([1, 5] : List Int).length :=
  rating_distribution_welldefined.1 [1, 5] (by decide)

end Corner
